import Mathlib

/-!
# Verification of the `ward` package (Ward Trucking API client)

Shallow embedding of `src/ward.go`.  The package wraps two operations of an
XML/SOAP web service: scheduling a freight pickup (`RequestPickup`) and
obtaining a rate quote (`RateQuote`).

Modelling conventions:
* Go strings are Lean `String`s (sequences of Unicode scalar values).
* Go `uint` fields are `Nat` (the source only stores and prints them).
* Go `time.Duration` (an `int64` count of nanoseconds) is `Int`, with two's
  complement wraparound applied explicitly where the source multiplies.
* Go `float64` fields of the rate-quote response are carried opaquely as
  `Rat`: the source never performs arithmetic on them, it only transports
  parsed values to the caller.  The one `float64` that is marshalled
  (`RateQuoteAccessorialItem.Amount`) is modelled as `GoFloat64`, an
  opaque value paired with the text Go's formatter renders for it.
* The HTTP transport (`http.Client.Post` + `ioutil.ReadAll`) and the XML
  response decoder (`xml.Unmarshal` into a response structure) are effectful
  library calls; they are passed to the embedded operations as explicit
  oracle functions, so the theorems quantify over every possible behaviour
  of the network and of the decoder.
* The XML request encoder (`xml.Marshal` of the request structures with
  their struct tags) is modelled concretely below (`marshalPickupRequest`,
  `marshalRateQuoteRequest`), following the documented output of Go's
  `encoding/xml` for these field tags, including its character-data and
  attribute escaping (`escapeChar` mirrors `xml.EscapeText`: the five
  special characters and tab/LF/CR become entity references, characters
  outside the XML character range are replaced by U+FFFD).
-/

namespace Ward

/-! ## API urls (source lines 40–45) -/

def pickupRequestTestURL : String := "http://208.51.75.23:6082/cgi-bin/map/PICKUPTEST"

def pickupRequestProductionURL : String := "http://208.51.75.23:6082/cgi-bin/map/PICKUP"

def rateQuoteURL : String := "http://208.51.75.23:6082/cgi-bin/map/RATEQUOTE"

/-! ## base XML data (source lines 59–63) -/

def xsiAttr : String := "http://www.w3.org/2001/XMLSchema-instance"

def xsdAttr : String := "http://www.w3.org/2001/XMLSchema"

def soap12Attr : String := "http://www.w3.org/2003/05/soap-envelope"

/-! ## Package-level mutable state (source lines 51 and 56)

The package has two mutable globals: `pickupRequestURL` and `timeout`.
They are gathered in a state record; the two setters are state
transformers and the two operations read the state. -/

/-- One nanosecond count of Go's `time.Second`. -/
def goSecond : Int := 1000000000

/-- Reduce an integer into `int64` range by two's complement wraparound,
as Go arithmetic on `time.Duration` does. -/
def int64wrap (x : Int) : Int := (x + 2 ^ 63) % 2 ^ 64 - 2 ^ 63

/-- The package's mutable globals: `var pickupRequestURL` and `var timeout`. -/
structure WardState where
  pickupRequestURL : String
  timeout : Int
  deriving Repr, DecidableEq

/-- Initial values of the globals:
`var pickupRequestURL = pickupRequestTestURL` and
`var timeout = time.Duration(10 * time.Second)`. -/
def initialWardState : WardState :=
  { pickupRequestURL := pickupRequestTestURL
    timeout := 10 * goSecond }

/-- `SetProductionMode` (source lines 66–69): unconditionally switches the
pickup url to the production url; the boolean argument is ignored. -/
def SetProductionMode (_yes : Bool) (st : WardState) : WardState :=
  { st with pickupRequestURL := pickupRequestProductionURL }

/-- `SetTimeout` (source lines 73–76): `timeout = time.Duration(seconds * time.Second)`.
The multiplication is `int64` multiplication of two `time.Duration` values,
hence the explicit wraparound. -/
def SetTimeout (seconds : Int) (st : WardState) : WardState :=
  { st with timeout := int64wrap (seconds * goSecond) }

/-- The exposed operations that mutate the package state.  `RequestPickup`
and `RateQuote` only read the state (their embeddings below take a
`WardState` and return none), so they do not appear here. -/
inductive ConfigCall where
  | setProductionMode (yes : Bool)
  | setTimeout (seconds : Int)

def applyConfigCall : ConfigCall → WardState → WardState
  | .setProductionMode yes, st => SetProductionMode yes st
  | .setTimeout s, st => SetTimeout s st

def applyConfigCalls : List ConfigCall → WardState → WardState
  | [], st => st
  | c :: cs, st => applyConfigCalls cs (applyConfigCall c st)

/-! ## Request data structures (source lines 79–157 and 237–280)

`XMLName xml.Name` fields are serialization metadata (they fix the element
name `soap12:Envelope`), not caller data, and are represented by the
marshaller itself rather than by a record field. -/

/-- `PickupRequestShipperInformation` (source lines 91–123). -/
structure PickupRequestShipperInformation where
  ShipperCode : String
  ShipperName : String
  ShipperAddress1 : String
  ShipperAddress2 : String
  ShipperCity : String
  ShipperState : String
  ShipperZipcode : String
  ShipperContactName : String
  ShipperContactTelephone : String
  ShipperContactEmail : String
  ShipperReadyTime : String
  ShipperCloseTime : String
  PickupDate : String
  ThirdParty : String
  ThirdPartyName : String
  ThirdPartyContactName : String
  ThirdPartyContactTelephone : String
  ThirdPartyContactEmail : String
  WardAssuredContactName : String
  WardAssuredContactTelephone : String
  WardAssuredContactEmail : String
  ShipperRestriction : String
  DriverNote1 : String
  DriverNote2 : String
  DriverNote3 : String
  RequestOrigin : String
  RequestorUser : String
  RequestorRole : String
  RequestorContactName : String
  RequestorContactTelephone : String
  RequestorContactEmail : String
  deriving Repr, DecidableEq

/-- `PickupRequestShipment` (source lines 126–157).  `Pieces` and `Weight`
are Go `uint` fields. -/
structure PickupRequestShipment where
  Pieces : Nat
  PackageCode : String
  Weight : Nat
  ConsigneeCode : String
  ConsigneeName : String
  ConsigneeAddress1 : String
  ConsigneeAddress2 : String
  ConsigneeCity : String
  ConsigneeState : String
  ConsigneeZipcode : String
  ShipperRoutingSCAC : String
  Hazardous : String
  Freezable : String
  DeliveryAppntFlag : String
  DeliveryAppntDate : String
  WardAssured12PM : String
  WardAssured03PM : String
  WardAssuredTimeDefinite : String
  WardAssuredTimeDefiniteStart : String
  WardAssuredTimeDefiniteEnd : String
  FullValue : String
  FullValueInsuredAmount : String
  NonStandardSize : String
  NonStandardSizeDescription : String
  RequestorReference : String
  PickupShipmentInstruction1 : String
  PickupShipmentInstruction2 : String
  PickupShipmentInstruction3 : String
  PickupShipmentInstruction4 : String
  RequestOrigin : String
  deriving Repr, DecidableEq

/-- `PickupRequest` (source lines 79–88): the xml envelope.  The three
namespace attribute fields are overwritten by `RequestPickup` before
marshalling. -/
structure PickupRequest where
  XsiAttr : String
  XsdAttr : String
  Soap12Attr : String
  ShipperInfo : PickupRequestShipperInformation
  Shipment : PickupRequestShipment
  deriving Repr, DecidableEq

/-- `PickupRequestResponseResult` (source lines 166–172). -/
structure PickupRequestResponseResult where
  PickupConfirmation : String
  Message : String
  PickupTerminal : String
  WardTelephone : String
  WardEmail : String
  deriving Repr, DecidableEq

/-- `PickupRequestResponse` (source lines 160–163). -/
structure PickupRequestResponse where
  CreateResult : PickupRequestResponseResult
  deriving Repr, DecidableEq

/-- `RateQuoteDetailItem` (source lines 266–270): three Go `uint` fields. -/
structure RateQuoteDetailItem where
  Weight : Nat
  Pieces : Nat
  Class : Nat
  deriving Repr, DecidableEq

/-- An opaque Go `float64` as it occurs in a marshalled request: the
rational value the bits denote, paired with the text
`strconv.FormatFloat(f, 'g', -1, 64)` renders for them, which is what
`xml.Marshal` prints (e.g. 0.5 with text "0.5", 10^20 with text "1e+20").
The source never computes with this field — it only prints it — so the
rendering is carried as data instead of recomputing Go's shortest
round-trip formatter; the value drives the `omitempty` zero test, which Go
performs by numeric comparison. -/
structure GoFloat64 where
  val : Rat
  text : String
  deriving Repr, DecidableEq

/-- The zero `float64`. -/
def zeroGoFloat64 : GoFloat64 := ⟨0, "0"⟩

/-- `RateQuoteAccessorialItem` (source lines 274–280).  `Description` and
`Amount` carry `omitempty` tags and are populated in responses only. -/
structure RateQuoteAccessorialItem where
  Code : String
  Description : String
  Amount : GoFloat64
  deriving Repr, DecidableEq

/-- `RateQuoteRequestInner` (source lines 250–262). -/
structure RateQuoteRequestInner where
  Details : List RateQuoteDetailItem
  Accessorials : List RateQuoteAccessorialItem
  BillingTerms : String
  OriginCity : String
  OriginState : String
  OriginZipcode : String
  DestinationCity : String
  DestinationState : String
  DestinationZipcode : String
  PalletCount : Nat
  Customer : String
  deriving Repr, DecidableEq

/-- `RateQuoteRequest` (source lines 238–246). -/
structure RateQuoteRequest where
  XsiAttr : String
  XsdAttr : String
  Soap12Attr : String
  Request : RateQuoteRequestInner
  deriving Repr, DecidableEq

/-- `ServiceCenter` (source lines 310–321). -/
structure ServiceCenter where
  ID : Nat
  Name : String
  Manager : String
  Address : String
  City : String
  State : String
  ZipCode : String
  TransitDays : Nat
  Fax : String
  Phone : String
  deriving Repr, DecidableEq

/-- The anonymous `CustomerService struct { Phone string }` of
`RateQuoteResponseResult` (source lines 292–294). -/
structure RateQuoteCustomerService where
  Phone : String
  deriving Repr, DecidableEq

/-- `RateQuoteResponseRateDetails` (source lines 324–331). -/
structure RateQuoteResponseRateDetails where
  Class : String
  Weight : Nat
  Amount : Rat
  Rate : Rat
  Pieces : Nat
  RateAccessorials : List RateQuoteAccessorialItem
  deriving Repr, DecidableEq

/-- `RateQuoteResponseResult` (source lines 289–307). -/
structure RateQuoteResponseResult where
  OriginServiceCenter : ServiceCenter
  DestinationServiceCenter : ServiceCenter
  CustomerService : RateQuoteCustomerService
  Customer : String
  ShipZip : String
  ConsZip : String
  DiscountPercent : Rat
  DiscountAmount : Rat
  FuelSurchargePercent : Rat
  FuelSurchargeAmount : Rat
  NetCharge : Rat
  Tarrif : String
  PricingEffectiveDate : String
  QuoteID : String
  RateDetails : List RateQuoteResponseRateDetails
  deriving Repr, DecidableEq

/-- `RateQuoteResponse` (source lines 283–286). -/
structure RateQuoteResponse where
  CreateResult : RateQuoteResponseResult
  deriving Repr, DecidableEq

/-! ## The XML encoder

Concrete model of `xml.Marshal` on the two request structures, following
Go's `encoding/xml` output for the struct tags declared in the source:
the envelope element is `soap12:Envelope` carrying the three namespace
attributes, the nested paths `soap12:Body>request>...` produce nested
parent elements that merge across consecutive fields, untagged fields use
the field name as element name, `uint` fields print in decimal, and text
is escaped as by `xml.EscapeText`. -/

/-- The double-quote character. -/
def quoteChar : Char := Char.ofNat 34

/-- The apostrophe character. -/
def aposChar : Char := Char.ofNat 39

/-- Characters allowed in an XML document (the XML `Char` production),
as tested by `encoding/xml`'s `isInCharacterRange`. -/
def validXmlChar (c : Char) : Bool :=
  c = '\t' || c = '\n' || c = '\r' ||
  (0x20 ≤ c.toNat && c.toNat ≤ 0xD7FF) ||
  (0xE000 ≤ c.toNat && c.toNat ≤ 0xFFFD) ||
  (0x10000 ≤ c.toNat && c.toNat ≤ 0x10FFFF)

/-- Escape one character as `xml.EscapeText` does: the five XML special
characters and tab/newline/carriage return become character references,
characters outside the XML character range are replaced by U+FFFD, and
every other character passes through. -/
def escapeChar (c : Char) : List Char :=
  if c = quoteChar then ['&', '#', '3', '4', ';']
  else if c = aposChar then ['&', '#', '3', '9', ';']
  else if c = '&' then ['&', 'a', 'm', 'p', ';']
  else if c = '<' then ['&', 'l', 't', ';']
  else if c = '>' then ['&', 'g', 't', ';']
  else if c = '\t' then ['&', '#', 'x', '9', ';']
  else if c = '\n' then ['&', '#', 'x', 'A', ';']
  else if c = '\r' then ['&', '#', 'x', 'D', ';']
  else if validXmlChar c then [c]
  else [Char.ofNat 0xFFFD]

/-- Escape a character sequence (`xml.EscapeText`). -/
def escapeList : List Char → List Char
  | [] => []
  | c :: rest => escapeChar c ++ escapeList rest

/-- Decimal digits of `n`, most significant first, prepended to `acc`;
`fuel` bounds the recursion and any `fuel > n` is enough. -/
def natCharsCore : Nat → Nat → List Char → List Char
  | 0, _, acc => acc
  | fuel + 1, n, acc =>
    if n < 10 then Char.ofNat (48 + n) :: acc
    else natCharsCore fuel (n / 10) (Char.ofNat (48 + n % 10) :: acc)

/-- Decimal representation of a Go `uint`, as `xml.Marshal` prints it. -/
def natChars (n : Nat) : List Char := natCharsCore (n + 1) n []

/-- Decimal representation of a Go `uint` as a string. -/
def natStr (n : Nat) : String := String.mk (natChars n)

/-- `<name>`. -/
def openTag (name : String) : List Char := '<' :: (name.toList ++ ['>'])

/-- `/name>`: the part of a closing tag after its `<`. -/
def closeTagTail (name : String) : List Char := '/' :: (name.toList ++ ['>'])

/-- `<name>` … escaped value … `</name>`: one simple element, as
`xml.Marshal` renders an untagged string field. -/
def fieldChars (name : String) (v : String) : List Char :=
  openTag name ++ (escapeList v.toList ++ ('<' :: closeTagTail name))

/-- `<name>` … content … `</name>`. -/
def wrapElem (name : String) (content : List Char) : List Char :=
  openTag name ++ (content ++ ('<' :: closeTagTail name))

/-- Render a sequence of simple elements, one per (name, value) pair, in
declaration order. -/
def marshalFields : List (String × String) → List Char
  | [] => []
  | (n, v) :: rest => fieldChars n v ++ marshalFields rest

/-- Concatenation of the renderings of a list's elements. -/
def concatMap (f : α → List Char) : List α → List Char
  | [] => []
  | a :: as => f a ++ concatMap f as

/-! ## Field tables for the pickup request structures -/

/-- The fields of `PickupRequestShipperInformation` in declaration order,
as (element name, text) pairs. -/
def shipperPairs (s : PickupRequestShipperInformation) : List (String × String) :=
  [("ShipperCode", s.ShipperCode),
   ("ShipperName", s.ShipperName),
   ("ShipperAddress1", s.ShipperAddress1),
   ("ShipperAddress2", s.ShipperAddress2),
   ("ShipperCity", s.ShipperCity),
   ("ShipperState", s.ShipperState),
   ("ShipperZipcode", s.ShipperZipcode),
   ("ShipperContactName", s.ShipperContactName),
   ("ShipperContactTelephone", s.ShipperContactTelephone),
   ("ShipperContactEmail", s.ShipperContactEmail),
   ("ShipperReadyTime", s.ShipperReadyTime),
   ("ShipperCloseTime", s.ShipperCloseTime),
   ("PickupDate", s.PickupDate),
   ("ThirdParty", s.ThirdParty),
   ("ThirdPartyName", s.ThirdPartyName),
   ("ThirdPartyContactName", s.ThirdPartyContactName),
   ("ThirdPartyContactTelephone", s.ThirdPartyContactTelephone),
   ("ThirdPartyContactEmail", s.ThirdPartyContactEmail),
   ("WardAssuredContactName", s.WardAssuredContactName),
   ("WardAssuredContactTelephone", s.WardAssuredContactTelephone),
   ("WardAssuredContactEmail", s.WardAssuredContactEmail),
   ("ShipperRestriction", s.ShipperRestriction),
   ("DriverNote1", s.DriverNote1),
   ("DriverNote2", s.DriverNote2),
   ("DriverNote3", s.DriverNote3),
   ("RequestOrigin", s.RequestOrigin),
   ("RequestorUser", s.RequestorUser),
   ("RequestorRole", s.RequestorRole),
   ("RequestorContactName", s.RequestorContactName),
   ("RequestorContactTelephone", s.RequestorContactTelephone),
   ("RequestorContactEmail", s.RequestorContactEmail)]

/-- The fields of `PickupRequestShipment` in declaration order, the two
`uint` fields rendered in decimal. -/
def shipmentPairs (s : PickupRequestShipment) : List (String × String) :=
  [("Pieces", natStr s.Pieces),
   ("PackageCode", s.PackageCode),
   ("Weight", natStr s.Weight),
   ("ConsigneeCode", s.ConsigneeCode),
   ("ConsigneeName", s.ConsigneeName),
   ("ConsigneeAddress1", s.ConsigneeAddress1),
   ("ConsigneeAddress2", s.ConsigneeAddress2),
   ("ConsigneeCity", s.ConsigneeCity),
   ("ConsigneeState", s.ConsigneeState),
   ("ConsigneeZipcode", s.ConsigneeZipcode),
   ("ShipperRoutingSCAC", s.ShipperRoutingSCAC),
   ("Hazardous", s.Hazardous),
   ("Freezable", s.Freezable),
   ("DeliveryAppntFlag", s.DeliveryAppntFlag),
   ("DeliveryAppntDate", s.DeliveryAppntDate),
   ("WardAssured12PM", s.WardAssured12PM),
   ("WardAssured03PM", s.WardAssured03PM),
   ("WardAssuredTimeDefinite", s.WardAssuredTimeDefinite),
   ("WardAssuredTimeDefiniteStart", s.WardAssuredTimeDefiniteStart),
   ("WardAssuredTimeDefiniteEnd", s.WardAssuredTimeDefiniteEnd),
   ("FullValue", s.FullValue),
   ("FullValueInsuredAmount", s.FullValueInsuredAmount),
   ("NonStandardSize", s.NonStandardSize),
   ("NonStandardSizeDescription", s.NonStandardSizeDescription),
   ("RequestorReference", s.RequestorReference),
   ("PickupShipmentInstruction1", s.PickupShipmentInstruction1),
   ("PickupShipmentInstruction2", s.PickupShipmentInstruction2),
   ("PickupShipmentInstruction3", s.PickupShipmentInstruction3),
   ("PickupShipmentInstruction4", s.PickupShipmentInstruction4),
   ("RequestOrigin", s.RequestOrigin)]

/-! ## Marshalling the pickup request -/

/-- `xml.Marshal` of a `PickupRequest` (used at source line 182): the
`soap12:Envelope` root with its three namespace attributes, the merged
nested parents `soap12:Body>request`, and the two field blocks. -/
def marshalPickupRequestList (p : PickupRequest) : List Char :=
  "<soap12:Envelope xmlns:xsi=\"".toList ++
    (escapeList p.XsiAttr.toList ++ (quoteChar ::
      (" xmlns:xsd=\"".toList ++
        (escapeList p.XsdAttr.toList ++ (quoteChar ::
          (" xmlns:soap12=\"".toList ++
            (escapeList p.Soap12Attr.toList ++ (quoteChar ::
              ("><soap12:Body><request><ShipperInformation>".toList ++
                (marshalFields (shipperPairs p.ShipperInfo) ++
                  ("</ShipperInformation><Shipment>".toList ++
                    (marshalFields (shipmentPairs p.Shipment) ++
                      "</Shipment></request></soap12:Body></soap12:Envelope>".toList))))))))))))

/-- `xml.Marshal` of a `PickupRequest`, as a string. -/
def marshalPickupRequest (p : PickupRequest) : String :=
  String.mk (marshalPickupRequestList p)

/-! ## The decoder's root-element check

`xml.Unmarshal(data, &PickupRequest{})` never gets past the document's
root element on this schema: the decoder splits an element name at its
colon into a namespace prefix and a local part, while the name declared in
the struct tag `xml:"soap12:Envelope"` is compared verbatim — `encoding/xml`
gives the colon no special treatment inside struct tags.  The local name
`Envelope` therefore never equals the expected `soap12:Envelope` and
unmarshalling stops with an `UnmarshalError` before filling any field.
The definitions below model unmarshalling exactly to that depth: reading
the root start-element's name, translating it, and performing the name
check whose failure is the error the program reports. -/

/-- The characters of an element name: everything after the `<` up to the
first space or `>`. -/
def takeTagName : List Char → List Char
  | [] => []
  | c :: rest => if c = ' ' || c = '>' then [] else c :: takeTagName rest

/-- The raw (untranslated) name of a document's root start-element; `none`
when the input does not begin with a start-element. -/
def rootElementRawName (s : List Char) : Option String :=
  match s with
  | '<' :: rest => some (String.mk (takeTagName rest))
  | _ => none

/-- The characters after the first colon, if any. -/
def afterFirstColon : List Char → Option (List Char)
  | [] => none
  | c :: rest => if c = ':' then some rest else afterFirstColon rest

/-- The local part of an XML name as Go's decoder derives it: the text
after the first colon (the prefix before it is resolved as a namespace and
dropped from the local name); a name without a colon is its own local
part. -/
def xmlLocalName (raw : String) : String :=
  match afterFirstColon raw.toList with
  | some l => String.mk l
  | none => raw

/-- The root-element name check `xml.Unmarshal` performs for the
pickup-request schema before decoding any field: the root's translated
local name must equal the declared tag `soap12:Envelope`, kept verbatim;
on mismatch unmarshalling returns
`expected element type <soap12:Envelope> but have <...>` and the target
structure is left unfilled.  `Except.ok` means only that this first check
passed (unreachable on any document whose root carries a namespace
prefix, in particular on everything the encoder above emits). -/
def unmarshalPickupRequestCheck (s : String) : Except String Unit :=
  match rootElementRawName s.toList with
  | none => Except.error "XML syntax error"
  | some raw =>
    if xmlLocalName raw = "soap12:Envelope" then Except.ok ()
    else
      Except.error
        ("expected element type <soap12:Envelope> but have <" ++
          xmlLocalName raw ++ ">")

/-! ## Marshalling the rate-quote request -/

/-- One `<DetailItem>` body: the three `uint` fields of
`RateQuoteDetailItem` in declaration order. -/
def marshalDetailItem (d : RateQuoteDetailItem) : List Char :=
  fieldChars "Weight" (natStr d.Weight) ++
  fieldChars "Pieces" (natStr d.Pieces) ++
  fieldChars "Class" (natStr d.Class)

/-- The `Details>DetailItem` slice: nothing when empty, otherwise one
`<Details>` parent wrapping a `<DetailItem>` per element. -/
def marshalDetails (ds : List RateQuoteDetailItem) : List Char :=
  match ds with
  | [] => []
  | _ => wrapElem "Details" (concatMap (fun d => wrapElem "DetailItem" (marshalDetailItem d)) ds)

/-- One `<AccessorialItem>` body: `Code`, then `Description` and `Amount`
only when nonempty/nonzero (their `omitempty` tags). -/
def marshalAccessorialItem (a : RateQuoteAccessorialItem) : List Char :=
  fieldChars "Code" a.Code ++
  (if a.Description = "" then [] else fieldChars "Description" a.Description) ++
  (if a.Amount.val = 0 then [] else fieldChars "Amount" a.Amount.text)

/-- The `Accessorials>AccessorialItem` slice. -/
def marshalAccessorials (as0 : List RateQuoteAccessorialItem) : List Char :=
  match as0 with
  | [] => []
  | _ => wrapElem "Accessorials" (concatMap (fun a => wrapElem "AccessorialItem" (marshalAccessorialItem a)) as0)

/-- The body of the `request` element: the fields of
`RateQuoteRequestInner` in declaration order. -/
def marshalRateQuoteInner (r : RateQuoteRequestInner) : List Char :=
  marshalDetails r.Details ++
  marshalAccessorials r.Accessorials ++
  fieldChars "BillingTerms" r.BillingTerms ++
  fieldChars "OriginCity" r.OriginCity ++
  fieldChars "OriginState" r.OriginState ++
  fieldChars "OriginZipcode" r.OriginZipcode ++
  fieldChars "DestinationCity" r.DestinationCity ++
  fieldChars "DestinationState" r.DestinationState ++
  fieldChars "DestinationZipcode" r.DestinationZipcode ++
  fieldChars "PalletCount" (natStr r.PalletCount) ++
  fieldChars "Customer" r.Customer

/-- `xml.Marshal` of a `RateQuoteRequest` (used at source line 341). -/
def marshalRateQuoteRequestList (p : RateQuoteRequest) : List Char :=
  "<soap12:Envelope xmlns:xsi=\"".toList ++
    (escapeList p.XsiAttr.toList ++ (quoteChar ::
      (" xmlns:xsd=\"".toList ++
        (escapeList p.XsdAttr.toList ++ (quoteChar ::
          (" xmlns:soap12=\"".toList ++
            (escapeList p.Soap12Attr.toList ++ (quoteChar ::
              ("><soap12:Body><request>".toList ++
                (marshalRateQuoteInner p.Request ++
                  "</request></soap12:Body></soap12:Envelope>".toList))))))))))

/-- `xml.Marshal` of a `RateQuoteRequest`, as a string. -/
def marshalRateQuoteRequest (p : RateQuoteRequest) : String :=
  String.mk (marshalRateQuoteRequestList p)

/-! ## The two operations

`RequestPickup` (source lines 175–235) and `RateQuote` (source lines
334–380).  Each sets the three namespace attributes on its receiver,
marshals it, prepends `xml.Header` and appends a newline, POSTs the body
with a fresh `http.Client{Timeout: timeout}`, reads the response body and
unmarshals it.  The network round trip (`Post` + `ReadAll`) and the
response decoder (`xml.Unmarshal`) are oracle parameters. -/

/-- Go's `xml.Header` constant: the XML declaration plus a newline. -/
def xmlHeader : String := "<?xml version=\"1.0\" encoding=\"UTF-8\"?>\n"

/-- One HTTP request as issued by `http.Client{Timeout: timeout}.Post(url,
contentType, body)`: always a single POST. -/
structure PostCall where
  url : String
  method : String
  contentType : String
  body : String
  timeoutNs : Int
  deriving Repr, DecidableEq

/-- Outcome of the network round trip: `Post` fails, `ioutil.ReadAll`
fails, or a response body is obtained. -/
inductive HttpOutcome where
  | postFail (cause : String)
  | readFail (cause : String)
  | body (s : String)
  deriving Repr, DecidableEq

/-- A Go `error` value as produced by this package: either
`errors.Wrap(cause, msg)` or `errors.New(msg)`. -/
inductive GoError where
  | wrap (msg : String) (cause : String)
  | new (msg : String)
  deriving Repr, DecidableEq

/-- `p.XsdAttr = xsdAttr; p.XsiAttr = xsiAttr; p.Soap12Attr = soap12Attr`
(source lines 177–179): the receiver mutation at the top of
`RequestPickup`. -/
def withPickupAttrs (p : PickupRequest) : PickupRequest :=
  { p with XsiAttr := xsiAttr, XsdAttr := xsdAttr, Soap12Attr := soap12Attr }

/-- Source lines 336–338: the receiver mutation at the top of `RateQuote`. -/
def withRateQuoteAttrs (p : RateQuoteRequest) : RateQuoteRequest :=
  { p with XsiAttr := xsiAttr, XsdAttr := xsdAttr, Soap12Attr := soap12Attr }

/-- The HTTP request `RequestPickup` issues (source lines 190–198):
`xml.Header + marshalled request + "\n"` POSTed to the current
`pickupRequestURL` as `application/x-www-form-encoded`, with the current
timeout. -/
def pickupPostCall (st : WardState) (p : PickupRequest) : PostCall :=
  { url := st.pickupRequestURL
    method := "POST"
    contentType := "application/x-www-form-encoded"
    body := xmlHeader ++ marshalPickupRequest (withPickupAttrs p) ++ "\n"
    timeoutNs := st.timeout }

/-- The HTTP request `RateQuote` issues (source lines 349–357): the same
shape POSTed to the fixed `rateQuoteURL`. -/
def rateQuotePostCall (st : WardState) (p : RateQuoteRequest) : PostCall :=
  { url := rateQuoteURL
    method := "POST"
    contentType := "application/x-www-form-encoded"
    body := xmlHeader ++ marshalRateQuoteRequest (withRateQuoteAttrs p) ++ "\n"
    timeoutNs := st.timeout }

/-- What `RequestPickup` leaves behind: the mutated receiver, the HTTP
requests issued, Go's `(responseData, err)` return pair. -/
structure RequestPickupResult where
  receiver : PickupRequest
  calls : List PostCall
  responseData : PickupRequestResponse
  err : Option GoError
  deriving Repr, DecidableEq

/-- Ditto for `RateQuote`. -/
structure RateQuoteResult where
  receiver : RateQuoteRequest
  calls : List PostCall
  responseData : RateQuoteResponse
  err : Option GoError
  deriving Repr, DecidableEq

/-- The zero value of `PickupRequestResponse`, Go's `responseData` before
anything is decoded into it. -/
def zeroPickupRequestResponse : PickupRequestResponse :=
  ⟨⟨"", "", "", "", ""⟩⟩

/-- The zero value of `ServiceCenter`. -/
def zeroServiceCenter : ServiceCenter :=
  ⟨0, "", "", "", "", "", "", 0, "", ""⟩

/-- The zero value of `RateQuoteResponse`. -/
def zeroRateQuoteResponse : RateQuoteResponse :=
  ⟨⟨zeroServiceCenter, zeroServiceCenter, ⟨""⟩, "", "", "", 0, 0, 0, 0, 0,
    "", "", "", []⟩⟩

/-- `RequestPickup` (source lines 175–235).  `net` is the network oracle;
`unmarshal` is the `xml.Unmarshal` oracle, returning the decoded (possibly
partially filled) structure together with `some cause` when decoding
errors.  `xml.Marshal` of a `PickupRequest` cannot fail (the structure
contains only strings and uints), so the marshal-error branch of the
source is unreachable and the POST is always issued. -/
def RequestPickup (st : WardState) (p : PickupRequest)
    (net : PostCall → HttpOutcome)
    (unmarshal : String → PickupRequestResponse × Option String) :
    RequestPickupResult :=
  let receiver := withPickupAttrs p
  let call := pickupPostCall st p
  match net call with
  | .postFail cause =>
    ⟨receiver, [call], zeroPickupRequestResponse,
      some (.wrap "ward.RequestPickup - could not make post request" cause)⟩
  | .readFail cause =>
    ⟨receiver, [call], zeroPickupRequestResponse,
      some (.wrap "ward.RequestPickup - could not read response 1" cause)⟩
  | .body b =>
    match unmarshal b with
    | (rd, some cause) =>
      ⟨receiver, [call], rd,
        some (.wrap "ward.RequestPickup - could not read response 2" cause)⟩
    | (rd, none) =>
      if rd.CreateResult.PickupConfirmation = "" then
        ⟨receiver, [call], rd,
          some (.new "ward.RequestPickup - pickup request failed")⟩
      else
        ⟨receiver, [call], rd, none⟩

/-- `RateQuote` (source lines 334–380).  Identical pipeline against the
fixed `rateQuoteURL`; note there is no check on the decoded result: a
successfully decoded body is returned with a nil error as is. -/
def RateQuote (st : WardState) (p : RateQuoteRequest)
    (net : PostCall → HttpOutcome)
    (unmarshal : String → RateQuoteResponse × Option String) :
    RateQuoteResult :=
  let receiver := withRateQuoteAttrs p
  let call := rateQuotePostCall st p
  match net call with
  | .postFail cause =>
    ⟨receiver, [call], zeroRateQuoteResponse,
      some (.wrap "ward.RateQuote - could not make post request" cause)⟩
  | .readFail cause =>
    ⟨receiver, [call], zeroRateQuoteResponse,
      some (.wrap "ward.RateQuote - could not read response 1" cause)⟩
  | .body b =>
    match unmarshal b with
    | (rd, some cause) =>
      ⟨receiver, [call], rd,
        some (.wrap "ward.RateQuote - could not read response 2" cause)⟩
    | (rd, none) =>
      ⟨receiver, [call], rd, none⟩

/-! ## Concrete sample values used by witnesses and examples -/

/-- A `PickupRequestShipperInformation` with every field empty. -/
def zeroShipperInfo : PickupRequestShipperInformation :=
  ⟨"", "", "", "", "", "", "", "", "", "", "", "", "", "", "", "", "", "",
   "", "", "", "", "", "", "", "", "", "", "", "", ""⟩

/-- A `PickupRequestShipment` with every field empty / zero. -/
def zeroShipment : PickupRequestShipment :=
  ⟨0, "", 0, "", "", "", "", "", "", "", "", "", "", "", "", "", "", "",
   "", "", "", "", "", "", "", "", "", "", "", ""⟩

/-- A `PickupRequest` with every field empty. -/
def zeroPickupRequest : PickupRequest :=
  ⟨"", "", "", zeroShipperInfo, zeroShipment⟩

/-- A `RateQuoteRequest` with every field empty. -/
def zeroRateQuoteRequest : RateQuoteRequest :=
  ⟨"", "", "", ⟨[], [], "", "", "", "", "", "", "", 0, ""⟩⟩

/-- A populated pickup request, following the end-to-end scenario of the
specification (shipper code 12345 in zip 19103, 3 pieces of 500 lbs to
zip 60601). -/
def samplePickupRequest : PickupRequest :=
  { zeroPickupRequest with
      ShipperInfo := { zeroShipperInfo with
        ShipperCode := "12345", ShipperZipcode := "19103" }
      Shipment := { zeroShipment with
        Pieces := 3, Weight := 500, ConsigneeZipcode := "60601" } }


/-! ## Helper lemmas about the two operations -/

theorem RequestPickup_calls (st : WardState) (p : PickupRequest)
    (net : PostCall → HttpOutcome)
    (um : String → PickupRequestResponse × Option String) :
    (RequestPickup st p net um).calls = [pickupPostCall st p] := by
  cases hn : net (pickupPostCall st p) with
  | postFail c => simp [RequestPickup, hn]
  | readFail c => simp [RequestPickup, hn]
  | body b =>
    rcases hu : um b with ⟨rd, _ | e⟩
    · simp only [RequestPickup, hn, hu]
      split <;> rfl
    · simp [RequestPickup, hn, hu]

theorem RateQuote_calls (st : WardState) (q : RateQuoteRequest)
    (net : PostCall → HttpOutcome)
    (um : String → RateQuoteResponse × Option String) :
    (RateQuote st q net um).calls = [rateQuotePostCall st q] := by
  cases hn : net (rateQuotePostCall st q) with
  | postFail c => simp [RateQuote, hn]
  | readFail c => simp [RateQuote, hn]
  | body b =>
    rcases hu : um b with ⟨rd, _ | e⟩ <;> simp [RateQuote, hn, hu]

theorem RequestPickup_receiver (st : WardState) (p : PickupRequest)
    (net : PostCall → HttpOutcome)
    (um : String → PickupRequestResponse × Option String) :
    (RequestPickup st p net um).receiver = withPickupAttrs p := by
  cases hn : net (pickupPostCall st p) with
  | postFail c => simp [RequestPickup, hn]
  | readFail c => simp [RequestPickup, hn]
  | body b =>
    rcases hu : um b with ⟨rd, _ | e⟩
    · simp only [RequestPickup, hn, hu]
      split <;> rfl
    · simp [RequestPickup, hn, hu]

theorem RateQuote_receiver (st : WardState) (q : RateQuoteRequest)
    (net : PostCall → HttpOutcome)
    (um : String → RateQuoteResponse × Option String) :
    (RateQuote st q net um).receiver = withRateQuoteAttrs q := by
  cases hn : net (rateQuotePostCall st q) with
  | postFail c => simp [RateQuote, hn]
  | readFail c => simp [RateQuote, hn]
  | body b =>
    rcases hu : um b with ⟨rd, _ | e⟩ <;> simp [RateQuote, hn, hu]

theorem applyConfigCalls_production (cs : List ConfigCall) :
    ∀ st, st.pickupRequestURL = pickupRequestProductionURL →
      (applyConfigCalls cs st).pickupRequestURL = pickupRequestProductionURL := by
  induction cs with
  | nil => intro st h; exact h
  | cons c cs ih =>
    intro st h
    cases c with
    | setProductionMode yes => exact ih _ rfl
    | setTimeout s => exact ih _ h

/-! ## The claims -/

/-- C1: for every response body that the XML decoder accepts but whose
nested `CreateResult.PickupConfirmation` field is the empty string,
`RequestPickup` returns the non-nil error
`ward.RequestPickup - pickup request failed` and no confirmation data,
whatever the other fields of the result hold. -/
theorem claim_C1_empty_confirmation_error
    (st : WardState) (p : PickupRequest) (net : PostCall → HttpOutcome)
    (um : String → PickupRequestResponse × Option String)
    (b : String) (rd : PickupRequestResponse)
    (hnet : net (pickupPostCall st p) = .body b)
    (hum : um b = (rd, none))
    (hconf : rd.CreateResult.PickupConfirmation = "") :
    (RequestPickup st p net um).err =
      some (.new "ward.RequestPickup - pickup request failed") ∧
    (RequestPickup st p net um).responseData.CreateResult.PickupConfirmation = "" := by
  constructor <;> simp [RequestPickup, hnet, hum, hconf]

/-- Witness for C1: a response decoding to a result whose confirmation is
empty (but whose message field is populated) yields the failure error. -/
theorem claim_C1_witness :
    (RequestPickup initialWardState zeroPickupRequest (fun _ => .body "resp")
        (fun _ => (⟨⟨"", "no terminal found", "", "", ""⟩⟩, none))).err =
      some (.new "ward.RequestPickup - pickup request failed") :=
  (claim_C1_empty_confirmation_error initialWardState zeroPickupRequest
    (fun _ => .body "resp")
    (fun _ => (⟨⟨"", "no terminal found", "", "", ""⟩⟩, none))
    "resp" ⟨⟨"", "no terminal found", "", "", ""⟩⟩ rfl rfl rfl).1

/-- C2: `SetProductionMode` (with either boolean) switches the pickup url
to the fixed production url; no exposed state-mutating operation restores
the test url afterwards; and the rate-quote url is a fixed constant that
`SetProductionMode` does not touch. -/
theorem claim_C2_production_mode_one_way (yes : Bool) (st st2 : WardState)
    (cs : List ConfigCall) (p : PickupRequest) (q : RateQuoteRequest) :
    (SetProductionMode yes st).pickupRequestURL = pickupRequestProductionURL ∧
    (applyConfigCalls cs (SetProductionMode yes st)).pickupRequestURL =
      pickupRequestProductionURL ∧
    (pickupPostCall (SetProductionMode yes st) p).url =
      pickupRequestProductionURL ∧
    (rateQuotePostCall st2 q).url = rateQuoteURL ∧
    (rateQuotePostCall (SetProductionMode yes st2) q).url = rateQuoteURL ∧
    rateQuoteURL = "http://208.51.75.23:6082/cgi-bin/map/RATEQUOTE" ∧
    pickupRequestProductionURL = "http://208.51.75.23:6082/cgi-bin/map/PICKUP" :=
  ⟨rfl, applyConfigCalls_production cs _ rfl, rfl, rfl, rfl, rfl, rfl⟩

/-- C3, counterexample to the unqualified claim: passing the duration
value of ten seconds (`10 * 10^9` nanoseconds) does not yield a timeout of
`10^19` nanoseconds, because the `int64` multiplication wraps around. -/
theorem claim_C3_overflow_counterexample :
    (SetTimeout (10 * 1000000000) initialWardState).timeout ≠
      10 * 1000000000 * 1000000000 := by decide

/-- C3 (amended): `SetTimeout d` sets the timeout to `d * 10^9`
nanoseconds reduced by two's complement wraparound into `int64`; whenever
`d * 10^9` fits in `int64` the timeout is exactly `d * 10^9` nanoseconds,
i.e. the argument is read as a bare count of seconds. -/
theorem claim_C3_timeout_seconds_scaling (st : WardState) (d : Int) :
    (SetTimeout d st).timeout = int64wrap (d * goSecond) ∧
    (-(2 ^ 63) ≤ d * goSecond → d * goSecond < 2 ^ 63 →
      (SetTimeout d st).timeout = d * goSecond) := by
  constructor
  · rfl
  · intro h1 h2
    show int64wrap (d * goSecond) = d * goSecond
    unfold int64wrap
    omega

/-- Witness for C3: `SetTimeout 5` sets the timeout to five seconds'
worth of nanoseconds. -/
theorem claim_C3_witness :
    (SetTimeout 5 initialWardState).timeout = 5 * goSecond :=
  (claim_C3_timeout_seconds_scaling initialWardState 5).2 (by decide) (by decide)

/-- C5: for every response body the XML decoder accepts, `RateQuote`
returns the decoded structure with a nil error and performs no
success/failure check on it (the decoded structure is returned verbatim,
whatever its net charge or quote id). -/
theorem claim_C5_ratequote_no_check (st : WardState) (q : RateQuoteRequest)
    (net : PostCall → HttpOutcome)
    (um : String → RateQuoteResponse × Option String)
    (b : String) (rd : RateQuoteResponse)
    (hnet : net (rateQuotePostCall st q) = .body b)
    (hum : um b = (rd, none)) :
    (RateQuote st q net um).responseData = rd ∧
    (RateQuote st q net um).err = none := by
  constructor <;> simp [RateQuote, hnet, hum]

/-- Witness for C5: a decoded response with zero net charge and empty
quote id is returned with a nil error. -/
theorem claim_C5_witness :
    (RateQuote initialWardState zeroRateQuoteRequest (fun _ => .body "resp")
        (fun _ => (zeroRateQuoteResponse, none))).responseData.CreateResult.NetCharge = 0 ∧
    (RateQuote initialWardState zeroRateQuoteRequest (fun _ => .body "resp")
        (fun _ => (zeroRateQuoteResponse, none))).responseData.CreateResult.QuoteID = "" ∧
    (RateQuote initialWardState zeroRateQuoteRequest (fun _ => .body "resp")
        (fun _ => (zeroRateQuoteResponse, none))).err = none := by
  have h := claim_C5_ratequote_no_check initialWardState zeroRateQuoteRequest
    (fun _ => .body "resp") (fun _ => (zeroRateQuoteResponse, none))
    "resp" zeroRateQuoteResponse rfl rfl
  exact ⟨by rw [h.1]; rfl, by rw [h.1]; rfl, h.2⟩

/-- C6: for every response body the XML decoder rejects, the operation
returns the decoding failure wrapped as `... - could not read response 2`
(for its respective operation name) rather than the empty-result error —
no confirmation check is performed on undecoded data — and, being a total
function, it cannot panic. -/
theorem claim_C6_malformed_body_wrapped_error
    (st : WardState) (p : PickupRequest) (q : RateQuoteRequest)
    (net1 net2 : PostCall → HttpOutcome)
    (um1 : String → PickupRequestResponse × Option String)
    (um2 : String → RateQuoteResponse × Option String)
    (b1 b2 : String) (rd1 : PickupRequestResponse) (rd2 : RateQuoteResponse)
    (e1 e2 : String)
    (h1 : net1 (pickupPostCall st p) = .body b1)
    (h2 : um1 b1 = (rd1, some e1))
    (h3 : net2 (rateQuotePostCall st q) = .body b2)
    (h4 : um2 b2 = (rd2, some e2)) :
    (RequestPickup st p net1 um1).err =
      some (.wrap "ward.RequestPickup - could not read response 2" e1) ∧
    (RateQuote st q net2 um2).err =
      some (.wrap "ward.RateQuote - could not read response 2" e2) := by
  constructor
  · simp [RequestPickup, h1, h2]
  · simp [RateQuote, h3, h4]

/-- Witness for C6: a decoder failure (`xml: syntax error`) surfaces as the
stage-2 wrapped error on both operations. -/
theorem claim_C6_witness :
    (RequestPickup initialWardState zeroPickupRequest (fun _ => .body "<bad")
        (fun _ => (zeroPickupRequestResponse, some "xml: syntax error"))).err =
      some (.wrap "ward.RequestPickup - could not read response 2" "xml: syntax error") ∧
    (RateQuote initialWardState zeroRateQuoteRequest (fun _ => .body "<bad")
        (fun _ => (zeroRateQuoteResponse, some "xml: syntax error"))).err =
      some (.wrap "ward.RateQuote - could not read response 2" "xml: syntax error") :=
  claim_C6_malformed_body_wrapped_error initialWardState zeroPickupRequest
    zeroRateQuoteRequest (fun _ => .body "<bad") (fun _ => .body "<bad")
    (fun _ => (zeroPickupRequestResponse, some "xml: syntax error"))
    (fun _ => (zeroRateQuoteResponse, some "xml: syntax error"))
    "<bad" "<bad" zeroPickupRequestResponse zeroRateQuoteResponse
    "xml: syntax error" "xml: syntax error" rfl rfl rfl rfl

/-- C8: each operation issues exactly one HTTP request, a POST whose
Content-Type header is the string `application/x-www-form-encoded`. -/
theorem claim_C8_single_post_content_type
    (st : WardState) (p : PickupRequest) (q : RateQuoteRequest)
    (net1 net2 : PostCall → HttpOutcome)
    (um1 : String → PickupRequestResponse × Option String)
    (um2 : String → RateQuoteResponse × Option String) :
    (RequestPickup st p net1 um1).calls = [pickupPostCall st p] ∧
    (pickupPostCall st p).method = "POST" ∧
    (pickupPostCall st p).contentType = "application/x-www-form-encoded" ∧
    (RateQuote st q net2 um2).calls = [rateQuotePostCall st q] ∧
    (rateQuotePostCall st q).method = "POST" ∧
    (rateQuotePostCall st q).contentType = "application/x-www-form-encoded" :=
  ⟨RequestPickup_calls st p net1 um1, rfl, rfl,
   RateQuote_calls st q net2 um2, rfl, rfl⟩

/-- C9: before any configuration call, the pickup url in use is the fixed
test url and every HTTP call carries a timeout of exactly 10 seconds
(10^10 nanoseconds). -/
theorem claim_C9_defaults (p : PickupRequest) (q : RateQuoteRequest) :
    initialWardState.pickupRequestURL = pickupRequestTestURL ∧
    pickupRequestTestURL = "http://208.51.75.23:6082/cgi-bin/map/PICKUPTEST" ∧
    initialWardState.timeout = 10 * 1000000000 ∧
    (pickupPostCall initialWardState p).url = pickupRequestTestURL ∧
    (pickupPostCall initialWardState p).timeoutNs = 10 * 1000000000 ∧
    (rateQuotePostCall initialWardState q).timeoutNs = 10 * 1000000000 :=
  ⟨rfl, rfl, rfl, rfl, rfl, rfl⟩

/-- C10: each operation mutates its receiver only by overwriting the three
namespace attribute fields with the fixed URI constants, discarding any
caller-placed values; every other field is left unchanged. -/
theorem claim_C10_receiver_frame
    (st : WardState) (p : PickupRequest) (q : RateQuoteRequest)
    (net1 net2 : PostCall → HttpOutcome)
    (um1 : String → PickupRequestResponse × Option String)
    (um2 : String → RateQuoteResponse × Option String) :
    (RequestPickup st p net1 um1).receiver.XsiAttr = xsiAttr ∧
    (RequestPickup st p net1 um1).receiver.XsdAttr = xsdAttr ∧
    (RequestPickup st p net1 um1).receiver.Soap12Attr = soap12Attr ∧
    (RequestPickup st p net1 um1).receiver.ShipperInfo = p.ShipperInfo ∧
    (RequestPickup st p net1 um1).receiver.Shipment = p.Shipment ∧
    (RateQuote st q net2 um2).receiver.XsiAttr = xsiAttr ∧
    (RateQuote st q net2 um2).receiver.XsdAttr = xsdAttr ∧
    (RateQuote st q net2 um2).receiver.Soap12Attr = soap12Attr ∧
    (RateQuote st q net2 um2).receiver.Request = q.Request := by
  rw [RequestPickup_receiver st p net1 um1, RateQuote_receiver st q net2 um2]
  exact ⟨rfl, rfl, rfl, rfl, rfl, rfl, rfl, rfl, rfl⟩

/-- C7, counterexample: at the specification's own sample request
(shipper code 12345), re-parsing the serialized output against the same
schema reproduces nothing: the document's root element is
`<soap12:Envelope …>`, Go's decoder splits that name at the colon into a
namespace prefix and the local name `Envelope`, the declared `XMLName`
tag is kept verbatim as `soap12:Envelope`, and `xml.Unmarshal` stops with
`expected element type <soap12:Envelope> but have <Envelope>` before
filling any field. -/
theorem claim_C7_prefixed_root_counterexample :
    samplePickupRequest.ShipperInfo.ShipperCode = "12345" ∧
    rootElementRawName (marshalPickupRequest samplePickupRequest).toList =
      some "soap12:Envelope" ∧
    xmlLocalName "soap12:Envelope" = "Envelope" ∧
    unmarshalPickupRequestCheck (marshalPickupRequest samplePickupRequest) =
      Except.error "expected element type <soap12:Envelope> but have <Envelope>" := by
  refine ⟨rfl, ?_, rfl, rfl⟩
  decide

/-- C7 (amended): serializing a pickup request and re-parsing the output
against the same declared schema does not reproduce the populated fields:
for every pickup request, `xml.Unmarshal` rejects the encoder's own
output at the root element with
`expected element type <soap12:Envelope> but have <Envelope>`, because
the decoder namespace-splits the prefixed root name while the struct
tag's name is compared verbatim, colon included. -/
theorem claim_C7_roundtrip_fails (p : PickupRequest) :
    unmarshalPickupRequestCheck (marshalPickupRequest p) =
      Except.error "expected element type <soap12:Envelope> but have <Envelope>" := by
  rfl

end Ward
